import Mathlib

/-!
Shallow embedding of the syslog client core of this repository: a vendored
`log/syslog`-style `Writer` (priority constants, `parsePriority` and its two
mnemonic tables, `Dial`, `connect`, `write`/`writeString` formatting, and the
`writeAndRetry` reconnect-once logic), together with theorems settling the
specification claims about it.

Go strings are modelled as Lean `String`s; the byte length `len(s)` is
`String.utf8ByteSize`.  Go's `int` is modelled as `Int` (the bitwise
operations used here, `&` with `0x07`/`0xf8` and `|` of their results, agree
with two's-complement `Int.land`/`Int.lor` at every width).  Transport and
process effects (`net.Conn`, `time.Now()`, `os.Getpid()`, `os.Hostname()`,
write errors) are supplied by explicit environment records, and the sequence
of transport operations performed by a call is returned as an event trace.
-/

namespace Syslog

/-- Go: `type Priority int`. -/
abbrev Priority := Int

/-- Go: `const severityMask = 0x07`. -/
def severityMask : Int := 0x07

/-- Go: `const facilityMask = 0xf8`. -/
def facilityMask : Int := 0xf8

-- Severity constants, Go `iota`: LOG_EMERG = 0 .. LOG_DEBUG = 7.
def LOG_EMERG : Priority := 0
def LOG_ALERT : Priority := 1
def LOG_CRIT : Priority := 2
def LOG_ERR : Priority := 3
def LOG_WARNING : Priority := 4
def LOG_NOTICE : Priority := 5
def LOG_INFO : Priority := 6
def LOG_DEBUG : Priority := 7

-- Facility constants, Go `iota << 3`; ordinals 12-15 are unused (`_`) in the
-- source, so LOG_LOCAL0 resumes at 16 << 3 = 128.
def LOG_KERN : Priority := 0
def LOG_USER : Priority := 8
def LOG_MAIL : Priority := 16
def LOG_DAEMON : Priority := 24
def LOG_AUTH : Priority := 32
def LOG_SYSLOG : Priority := 40
def LOG_LPR : Priority := 48
def LOG_NEWS : Priority := 56
def LOG_UUCP : Priority := 64
def LOG_CRON : Priority := 72
def LOG_AUTHPRIV : Priority := 80
def LOG_FTP : Priority := 88
def LOG_LOCAL0 : Priority := 128
def LOG_LOCAL1 : Priority := 136
def LOG_LOCAL2 : Priority := 144
def LOG_LOCAL3 : Priority := 152
def LOG_LOCAL4 : Priority := 160
def LOG_LOCAL5 : Priority := 168
def LOG_LOCAL6 : Priority := 176
def LOG_LOCAL7 : Priority := 184

/-- Go: `strings.Split` on a single-character separator, at the character-list
level.  Like Go's `Split`, it always yields at least one token and yields
`[""]` on the empty string. -/
def splitChars (sep : Char) : List Char → List (List Char)
  | [] => [[]]
  | c :: rest =>
    if c = sep then [] :: splitChars sep rest
    else
      match splitChars sep rest with
      | [] => [[c]]
      | t :: ts => (c :: t) :: ts

/-- Go: `strings.Split(s, sep)` for a one-character separator. -/
def goSplit (s : String) (sep : Char) : List String :=
  (splitChars sep s.data).map String.mk

/-- Go: `strings.ToUpper` (all mnemonic comparisons are over ASCII, where
Go's per-rune upper-casing coincides with `Char.toUpper`). -/
def toUpperGo (s : String) : String := String.mk (s.data.map Char.toUpper)

/-- Go: `len(s)` on a string, i.e. its UTF-8 byte count. -/
def goLen (s : String) : Nat := s.utf8ByteSize

/-- Decimal digits of a natural number (fuel-based so that it computes in the
kernel); `natDecAux (n+1) n` renders `n` exactly like Go's `%d`. -/
def natDecAux : Nat → Nat → List Char
  | 0, _ => []
  | fuel + 1, n =>
    if n < 10 then [Nat.digitChar n]
    else natDecAux fuel (n / 10) ++ [Nat.digitChar (n % 10)]

/-- Go: `%d` on a nonnegative integer. -/
def natDec (n : Nat) : String := String.mk (natDecAux (n + 1) n)

/-- Go: `%d` on an `int` (sign handled as `fmt` does). -/
def intDec (i : Int) : String :=
  if i < 0 then "-" ++ natDec i.natAbs else natDec i.toNat

/-- Errors produced by the priority-string parser, carrying the (upper-cased)
offending token as the Go `fmt.Errorf` messages do. -/
inductive ParseError
  | invalidFacility (tok : String)
  | invalidLevel (tok : String)
deriving DecidableEq

instance : DecidableEq (Except ParseError Priority) := fun a b =>
  match a, b with
  | .ok x, .ok y => if h : x = y then .isTrue (by rw [h]) else .isFalse (by simp [h])
  | .ok _, .error _ => .isFalse (by simp)
  | .error _, .ok _ => .isFalse (by simp)
  | .error x, .error y => if h : x = y then .isTrue (by rw [h]) else .isFalse (by simp [h])

/-- The `switch` body of Go `levelPriority`, after `strings.ToUpper`. -/
def levelPriorityUp : String → Except ParseError Priority
  | "EMERG" => .ok LOG_EMERG
  | "ALERT" => .ok LOG_ALERT
  | "CRIT" => .ok LOG_CRIT
  | "ERR" => .ok LOG_ERR
  | "WARN" => .ok LOG_WARNING
  | "WARNING" => .ok LOG_WARNING
  | "NOTICE" => .ok LOG_NOTICE
  | "INFO" => .ok LOG_INFO
  | "DEBUG" => .ok LOG_DEBUG
  | lv => .error (.invalidLevel lv)

/-- Go: `levelPriority(level string) (Priority, error)`. -/
def levelPriority (level : String) : Except ParseError Priority :=
  levelPriorityUp (toUpperGo level)

/-- The `switch` body of Go `facilityPriority`, after `strings.ToUpper`. -/
def facilityPriorityUp : String → Except ParseError Priority
  | "KERN" => .ok LOG_KERN
  | "USER" => .ok LOG_USER
  | "MAIL" => .ok LOG_MAIL
  | "DAEMON" => .ok LOG_DAEMON
  | "AUTH" => .ok LOG_AUTH
  | "SYSLOG" => .ok LOG_SYSLOG
  | "LPR" => .ok LOG_LPR
  | "NEWS" => .ok LOG_NEWS
  | "UUCP" => .ok LOG_UUCP
  | "CRON" => .ok LOG_CRON
  | "AUTHPRIV" => .ok LOG_AUTHPRIV
  | "FTP" => .ok LOG_FTP
  | "LOCAL0" => .ok LOG_LOCAL0
  | "LOCAL1" => .ok LOG_LOCAL1
  | "LOCAL2" => .ok LOG_LOCAL2
  | "LOCAL3" => .ok LOG_LOCAL3
  | "LOCAL4" => .ok LOG_LOCAL4
  | "LOCAL5" => .ok LOG_LOCAL5
  | "LOCAL6" => .ok LOG_LOCAL6
  | "LOCAL7" => .ok LOG_LOCAL7
  | fac => .error (.invalidFacility fac)

/-- Go: `facilityPriority(facility string) (Priority, error)`. -/
def facilityPriority (facility : String) : Except ParseError Priority :=
  facilityPriorityUp (toUpperGo facility)

/-- Go: `parsePriority(priority string) (Priority, error)`.  The result
`none` models the run-time index-out-of-range panic Go raises when
`tokens[1]` is read past the end of the slice; evaluation order (facility
first, then the level token access) follows the source. -/
def parsePriority (priority : String) : Option (Except ParseError Priority) :=
  let tokens := goSplit priority '.'
  match tokens[0]? with
  | none => none
  | some t0 =>
    match facilityPriority t0 with
    | .error e => some (.error e)
    | .ok facility =>
      match tokens[1]? with
      | none => none
      | some t1 =>
        match levelPriority t1 with
        | .error e => some (.error e)
        | .ok level => some (.ok (Int.lor facility level))

/-- Transport/OS errors, kept abstract as their message strings. -/
abbrev Err := String

/-- Go: `type Writer struct` (the `conn` handle lives in the environment). -/
structure Writer where
  priority : Priority
  tag : String
  hostname : String
  network : String
  raddr : String
deriving DecidableEq

/-- Ambient transport and process state consumed by one emission call:
whether `w.conn != nil` on entry, the outcomes `net`/`fmt` would produce for
the first write, the reconnect, and the retried write, plus
`conn.LocalAddr().String()`, `time.Now().Format(time.RFC3339)` and
`os.Getpid()`. -/
structure NetEnv where
  connHeld : Bool
  firstWriteErr : Option Err
  connectErr : Option Err
  localAddr : String
  secondWriteErr : Option Err
  timestamp : String
  pid : Nat
deriving DecidableEq

/-- Transport operations attempted by a call, in order; a write attempt
records the framed string handed to the connection. -/
inductive Ev
  | writeA (frame : String)
  | connectA
deriving DecidableEq

/-- The frames handed to the transport, in order of attempt. -/
def framesOf : List Ev → List String
  | [] => []
  | .writeA f :: r => f :: framesOf r
  | .connectA :: r => framesOf r

/-- Number of write attempts in a trace. -/
def writeCount (evs : List Ev) : Nat := (framesOf evs).length

/-- Number of reconnect attempts in a trace. -/
def connectCount : List Ev → Nat
  | [] => 0
  | .writeA _ :: r => connectCount r
  | .connectA :: r => connectCount r + 1

/-- The dial half of Go `connect()` (everything after the stale-connection
close): `net.Dial`, and on success, if no hostname is configured, fill it in
from the connection's local address. -/
def Writer.connectDial (w : Writer) (env : NetEnv) : Option Err × Writer :=
  match env.connectErr with
  | some e => (some e, w)
  | none =>
    (none, if w.hostname = "" then { w with hostname := env.localAddr } else w)

/-- Go: `func (w *Writer) connect() (err error)` — invoked with `w.mu` held
(its comment requires it, and both callers hold the lock).  When a
connection is held, the source first calls `w.Close()`, which itself takes
`w.mu.Lock()`: `sync.Mutex` is not reentrant, so the goroutine deadlocks and
the call never returns — modelled as `none`.  (Upstream `log/syslog` closes
`w.conn` directly here and has no such re-lock; this copy deviates.)  With
no connection held the close is skipped and the dial proceeds. -/
def Writer.connect (w : Writer) (connHeld : Bool) (env : NetEnv) :
    Option (Option Err × Writer) :=
  if connHeld then none
  else some (w.connectDial env)

/-- The format string of Go `writeString`:
`"<%d>%s %s %s[%d]: %s%s"` applied to
`p, timestamp, hostname, tag, os.Getpid(), msg, nl`. -/
def writeStringFrame (p : Priority) (timestamp hostname tag : String)
    (pid : Nat) (msg nl : String) : String :=
  "<" ++ intDec p ++ ">" ++ timestamp ++ " " ++ hostname ++ " " ++ tag ++
    "[" ++ natDec pid ++ "]: " ++ msg ++ nl

/-- Go: `strings.HasSuffix(msg, "\n")` — for the one-character pattern this
is exactly "the last character is a newline". -/
def endsInNewline (s : String) : Bool :=
  match s.data.getLast? with
  | some c => c == '\n'
  | none => false

/-- The `nl` computed at the top of Go `write`: append a newline only when
the message does not already end with one. -/
def nlFor (msg : String) : String := if endsInNewline msg then "" else "\n"

/-- Go: `func (w *Writer) write(p Priority, msg string) (int, error)` — frames
the message and hands it to the transport (whose outcome `fprintfErr` the
environment supplies); on success returns `len(msg)`, the input length, not
the framed length; on failure returns `0` and the error.  The frame handed to
the transport is returned alongside for the trace. -/
def Writer.write (w : Writer) (timestamp : String) (pid : Nat)
    (fprintfErr : Option Err) (p : Priority) (msg : String) :
    (Nat × Option Err) × String :=
  let nl := nlFor msg
  let frame := writeStringFrame p timestamp w.hostname w.tag pid msg nl
  match fprintfErr with
  | some e => ((0, some e), frame)
  | none => ((goLen msg, none), frame)

/-- The shared tail of Go `writeAndRetry` (its last five lines): one
`connect()` — which deadlocks when a connection is still held — surfacing a
dial failure with `0` bytes, else one final write.  A first component of
`none` means the call never returns; the trace then records what was
attempted before the hang (the hang happens before `net.Dial`, so no
reconnect event is recorded). -/
def Writer.writeAndRetryTail (w : Writer) (connHeld : Bool) (env : NetEnv)
    (pr : Priority) (s : String) (evs : List Ev) :
    Option (Nat × Option Err) × Writer × List Ev :=
  match w.connect connHeld env with
  | none => (none, w, evs)
  | some (some e, w') => (some (0, some e), w', evs ++ [Ev.connectA])
  | some (none, w') =>
    match w'.write env.timestamp env.pid env.secondWriteErr pr s with
    | (r, fr) => (some r, w', evs ++ [Ev.connectA, Ev.writeA fr])

/-- Go: `pr := (w.priority & facilityMask) | (p & severityMask)` — the
priority written to the wire by an emission with per-call severity `p`. -/
def wirePriority (cp p : Priority) : Priority :=
  Int.lor (Int.land cp facilityMask) (Int.land p severityMask)

/-- Go: `func (w *Writer) writeAndRetry(p Priority, s string) (int, error)` —
if a connection is held, one write, returned immediately on success; when
that write fails the connection is still held, so the `connect()` that
follows deadlocks (result `none`: the call never returns); with no
connection held, reconnect once and (only if that succeeds) write once
more. -/
def Writer.writeAndRetry (w : Writer) (env : NetEnv) (p : Priority)
    (s : String) : Option (Nat × Option Err) × Writer × List Ev :=
  let pr := wirePriority w.priority p
  if env.connHeld then
    match w.write env.timestamp env.pid env.firstWriteErr pr s with
    | ((n, none), fr) => (some (n, none), w, [Ev.writeA fr])
    | ((_, some _), fr) => w.writeAndRetryTail true env pr s [Ev.writeA fr]
  else
    w.writeAndRetryTail false env pr s []

/-- Go: `func (w *Writer) Debug(m string) error`; the outer `none` marks a
call that never returns (the deadlock path of `writeAndRetry`). -/
def Writer.Debug (w : Writer) (env : NetEnv) (m : String) :
    Option (Option Err) × Writer × List Ev :=
  match w.writeAndRetry env LOG_DEBUG m with
  | (none, w', evs) => (none, w', evs)
  | (some (_, err), w', evs) => (some err, w', evs)

/-- Go: `func (w *Writer) Info(m string) error`; the outer `none` marks a
call that never returns. -/
def Writer.Info (w : Writer) (env : NetEnv) (m : String) :
    Option (Option Err) × Writer × List Ev :=
  match w.writeAndRetry env LOG_INFO m with
  | (none, w', evs) => (none, w', evs)
  | (some (_, err), w', evs) => (some err, w', evs)

/-- Errors `Dial` can return. -/
inductive DialError
  | invalidPriority
  | connectionError (e : Err)
deriving DecidableEq

instance : DecidableEq (Except DialError Writer) := fun a b =>
  match a, b with
  | .ok x, .ok y => if h : x = y then .isTrue (by rw [h]) else .isFalse (by simp [h])
  | .ok _, .error _ => .isFalse (by simp)
  | .error _, .ok _ => .isFalse (by simp)
  | .error x, .error y => if h : x = y then .isTrue (by rw [h]) else .isFalse (by simp [h])

/-- Process state consumed by `Dial`: `os.Args[0]`, the result of
`os.Hostname()` (empty when that call failed — its error is discarded), and
the transport environment for the initial `connect`. -/
structure DialEnv where
  arg0 : String
  osHostname : String
  net : NetEnv
deriving DecidableEq

/-- Go: `func Dial(network, raddr string, priority Priority, tag, hostname
string) (*Writer, error)` — validates the priority range, defaults tag and
hostname, then performs the initial connect. -/
def Dial (network raddr : String) (priority : Priority)
    (tag hostname : String) (env : DialEnv) : Except DialError Writer :=
  if priority < 0 ∨ Int.lor LOG_LOCAL7 LOG_DEBUG < priority then
    .error .invalidPriority
  else
    let tag := if tag = "" then env.arg0 else tag
    let hostname := if hostname = "" then env.osHostname else hostname
    let w : Writer :=
      { priority := priority, tag := tag, hostname := hostname,
        network := network, raddr := raddr }
    -- a freshly constructed Writer holds no connection, so `connect()`
    -- skips the stale-connection close (no deadlock) and is its dial body
    match w.connectDial env.net with
    | (some e, _) => .error (.connectionError e)
    | (none, w') => .ok w'

/-- The 20 facility mnemonics accepted by `facilityPriority`. -/
def facilityNames : List String :=
  ["KERN", "USER", "MAIL", "DAEMON", "AUTH", "SYSLOG", "LPR", "NEWS",
   "UUCP", "CRON", "AUTHPRIV", "FTP", "LOCAL0", "LOCAL1", "LOCAL2",
   "LOCAL3", "LOCAL4", "LOCAL5", "LOCAL6", "LOCAL7"]

/-- The 8 level mnemonics. -/
def levelNames : List String :=
  ["EMERG", "ALERT", "CRIT", "ERR", "WARNING", "NOTICE", "INFO", "DEBUG"]

/-- The tokens `levelPriority` accepts: the 8 mnemonics plus the `WARN`
alias. -/
def levelNamesAccepted : List String := levelNames ++ ["WARN"]

/-- The numeric facility values `facilityPriority` can return. -/
def facilityValuesList : List Int :=
  [0, 8, 16, 24, 32, 40, 48, 56, 64, 72, 80, 88,
   128, 136, 144, 152, 160, 168, 176, 184]

/-- The numeric level values `levelPriority` can return. -/
def levelValuesList : List Int := [0, 1, 2, 3, 4, 5, 6, 7]

/-- The reserved facility codes 12-15, as combined values `12<<3 .. 15<<3`. -/
def reservedFacilityValues : List Int := [96, 104, 112, 120]

/-- Boolean check used by the mnemonic-table claim: both tables accept and
`parsePriority` of the dotted string returns the `or` of their values. -/
def checkPair (f l : String) : Bool :=
  match facilityPriority f, levelPriority l with
  | .ok fv, .ok lv =>
    decide (parsePriority (f ++ "." ++ l) = some (.ok (Int.lor fv lv)))
  | _, _ => false

/-- The frame up to and including `"]: "`, i.e. everything `writeString`
puts before the message. -/
def framePre (p : Priority) (timestamp hostname tag : String)
    (pid : Nat) : String :=
  "<" ++ intDec p ++ ">" ++ timestamp ++ " " ++ hostname ++ " " ++ tag ++
    "[" ++ natDec pid ++ "]: "

/-- Whether a string ends with two newline characters. -/
def endsTwoNl (s : String) : Bool :=
  match s.data.reverse with
  | c1 :: c2 :: _ => c1 == '\n' && c2 == '\n'
  | _ => false

/-- Whether `p` is a leading substring of `s`. -/
def strHasPre (p s : String) : Bool := p.data.isPrefixOf s.data

/-- Fixed writer used to instantiate witness statements. -/
def sampleWriter : Writer := ⟨13, "tag", "host", "udp", ":514"⟩

/-- Environment with a held connection and no transport failures. -/
def sampleEnvOk : NetEnv := ⟨true, none, none, "la", none, "TS", 9⟩

/-- Environment with a held connection whose write fails: the path on which
`connect()` deadlocks. -/
def sampleEnvFirstFail : NetEnv :=
  ⟨true, some "write: broken pipe", none, "la", none, "TS", 9⟩

/-- Dial-time environment for witness statements. -/
def sampleDialEnv : DialEnv := ⟨"arg0", "hh", sampleEnvOk⟩

/-- The client of the end-to-end scenario: facility LOCAL3, severity ERR,
tag "svc". -/
def scenarioWriter : Writer :=
  ⟨Int.lor LOG_LOCAL3 LOG_ERR, "svc", "myhost", "udp", ":1514"⟩

/-- Environment of the end-to-end scenario: healthy held connection. -/
def scenarioEnv : NetEnv := ⟨true, none, none, "la", none, "2006-01-02T15:04:05Z", 77⟩

/-! ### Bitwise helper lemmas -/

/-- Bits of `248` and of `7` are disjoint. -/
theorem testBit_248_7_disj (i : Nat) :
    Nat.testBit 248 i = true → Nat.testBit 7 i = true → False := by
  intro h248 h7
  have h0 : (248 &&& 7 : Nat) = 0 := by decide
  have h1 := congrArg (fun x => Nat.testBit x i) h0
  simp only [Nat.testBit_land, Nat.zero_testBit] at h1
  rw [h248, h7] at h1
  simp at h1

/-- Masking an `or` of a `248`-bounded and a `7`-bounded value recovers each
component. -/
theorem natMaskOr (a b : Nat)
    (ha : ∀ i, a.testBit i = true → Nat.testBit 248 i = true)
    (hb : ∀ i, b.testBit i = true → Nat.testBit 7 i = true) :
    (a ||| b) &&& 7 = b ∧ (a ||| b) &&& 248 = a := by
  constructor
  · apply Nat.eq_of_testBit_eq
    intro i
    simp only [Nat.testBit_land, Nat.testBit_lor]
    cases hbi : b.testBit i with
    | true => simp [hb i hbi]
    | false =>
      cases hai : a.testBit i with
      | true =>
        cases h7 : Nat.testBit 7 i with
        | true => exact (testBit_248_7_disj i (ha i hai) h7).elim
        | false => simp
      | false => simp
  · apply Nat.eq_of_testBit_eq
    intro i
    simp only [Nat.testBit_land, Nat.testBit_lor]
    cases hai : a.testBit i with
    | true => simp [ha i hai]
    | false =>
      cases hbi : b.testBit i with
      | true =>
        cases h248 : Nat.testBit 248 i with
        | true => exact (testBit_248_7_disj i h248 (hb i hbi)).elim
        | false => simp
      | false => simp

/-- `x & 0xf8` is always a natural number whose bits lie inside `248`. -/
theorem land_facilityMask_shape (x : Int) :
    ∃ a : Nat, Int.land x facilityMask = Int.ofNat a ∧
      ∀ i, a.testBit i = true → Nat.testBit 248 i = true := by
  cases x with
  | ofNat m =>
    refine ⟨m &&& 248, rfl, fun i h => ?_⟩
    simp only [Nat.testBit_land, Bool.and_eq_true] at h
    exact h.2
  | negSucc m =>
    refine ⟨Nat.ldiff 248 m, rfl, fun i h => ?_⟩
    simp only [Nat.testBit_ldiff, Bool.and_eq_true] at h
    exact h.1

/-- `x & 0x07` is always a natural number whose bits lie inside `7`. -/
theorem land_severityMask_shape (x : Int) :
    ∃ b : Nat, Int.land x severityMask = Int.ofNat b ∧
      ∀ i, b.testBit i = true → Nat.testBit 7 i = true := by
  cases x with
  | ofNat m =>
    refine ⟨m &&& 7, rfl, fun i h => ?_⟩
    simp only [Nat.testBit_land, Bool.and_eq_true] at h
    exact h.2
  | negSucc m =>
    refine ⟨Nat.ldiff 7 m, rfl, fun i h => ?_⟩
    simp only [Nat.testBit_ldiff, Bool.and_eq_true] at h
    exact h.1

/-- The severity bits and facility bits of the wire priority are exactly the
masked per-call severity and the masked configured priority. -/
theorem wirePriority_masks (cp p : Priority) :
    Int.land (wirePriority cp p) severityMask = Int.land p severityMask ∧
    Int.land (wirePriority cp p) facilityMask = Int.land cp facilityMask := by
  obtain ⟨a, haEq, ha⟩ := land_facilityMask_shape cp
  obtain ⟨b, hbEq, hb⟩ := land_severityMask_shape p
  obtain ⟨h7, h248⟩ := natMaskOr a b ha hb
  unfold wirePriority
  rw [haEq, hbEq]
  constructor
  · show Int.ofNat ((a ||| b) &&& 7) = Int.ofNat b
    rw [h7]
  · show Int.ofNat ((a ||| b) &&& 248) = Int.ofNat a
    rw [h248]

/-! ### Structural lemmas about `write`, `connect` and `writeAndRetry` -/

/-- The frame handed to the transport by `write` is independent of the
transport's outcome. -/
theorem write_frame (w : Writer) (ts : String) (pid : Nat) (e : Option Err)
    (p : Priority) (msg : String) :
    (w.write ts pid e p msg).2 =
      writeStringFrame p ts w.hostname w.tag pid msg (nlFor msg) := by
  cases e <;> rfl

/-- A successful transport write returns the input length and no error. -/
theorem write_ok (w : Writer) (ts : String) (pid : Nat) (p : Priority)
    (msg : String) : (w.write ts pid none p msg).1 = (goLen msg, none) := rfl

/-- A failed transport write returns `0` and the error. -/
theorem write_err (w : Writer) (ts : String) (pid : Nat) (e : Err)
    (p : Priority) (msg : String) :
    (w.write ts pid (some e) p msg).1 = (0, some e) := rfl

/-- The dial half of `connect` never changes the tag. -/
theorem connectDial_tag (w : Writer) (env : NetEnv) :
    ((w.connectDial env).2).tag = w.tag := by
  unfold Writer.connectDial
  cases env.connectErr with
  | some e => rfl
  | none =>
    dsimp only
    split <;> rfl

/-- Scenario: connection held and the first write succeeds. -/
theorem writeAndRetry_first_ok (w : Writer) (env : NetEnv) (p : Priority)
    (s : String) (hc : env.connHeld = true) (hf : env.firstWriteErr = none) :
    w.writeAndRetry env p s =
      (some (goLen s, none), w,
        [Ev.writeA (writeStringFrame (wirePriority w.priority p) env.timestamp
          w.hostname w.tag env.pid s (nlFor s))]) := by
  unfold Writer.writeAndRetry Writer.write
  rw [hc, hf]
  rfl

/-- Scenario: no connection held and the reconnect fails. -/
theorem writeAndRetry_noconn_fail (w : Writer) (env : NetEnv) (p : Priority)
    (s : String) (e : Err) (hc : env.connHeld = false)
    (hce : env.connectErr = some e) :
    w.writeAndRetry env p s = (some (0, some e), w, [Ev.connectA]) := by
  unfold Writer.writeAndRetry Writer.writeAndRetryTail Writer.connect
    Writer.connectDial
  rw [hc, hce]
  rfl

/-- Scenario: no connection held, reconnect succeeds, one write follows. -/
theorem writeAndRetry_noconn_ok (w : Writer) (env : NetEnv) (p : Priority)
    (s : String) (hc : env.connHeld = false) (hce : env.connectErr = none) :
    w.writeAndRetry env p s =
      (some (((w.connectDial env).2).write env.timestamp env.pid
          env.secondWriteErr (wirePriority w.priority p) s).1,
        (w.connectDial env).2,
        [Ev.connectA,
         Ev.writeA (writeStringFrame (wirePriority w.priority p) env.timestamp
           ((w.connectDial env).2).hostname ((w.connectDial env).2).tag
           env.pid s (nlFor s))]) := by
  unfold Writer.writeAndRetry Writer.writeAndRetryTail Writer.connect
    Writer.connectDial Writer.write
  rw [hc, hce]
  cases env.secondWriteErr <;> rfl

/-- Scenario: connection held and the first write fails.  The connection is
still held when `connect()` is entered, so its stale-connection `w.Close()`
re-locks the held mutex and the call never returns: no reconnect is
performed and no second write happens. -/
theorem writeAndRetry_firstfail_deadlock (w : Writer) (env : NetEnv)
    (p : Priority) (s : String) (e1 : Err) (hc : env.connHeld = true)
    (hf : env.firstWriteErr = some e1) :
    w.writeAndRetry env p s =
      (none, w,
        [Ev.writeA (writeStringFrame (wirePriority w.priority p) env.timestamp
          w.hostname w.tag env.pid s (nlFor s))]) := by
  unfold Writer.writeAndRetry Writer.writeAndRetryTail Writer.connect
    Writer.write
  rw [hc, hf]
  rfl

/-- `utf8ByteSize.go` is additive over list append. -/
theorem utf8Go_append (l1 l2 : List Char) :
    String.utf8ByteSize.go (l1 ++ l2) =
      String.utf8ByteSize.go l1 + String.utf8ByteSize.go l2 := by
  induction l1 with
  | nil => simp [String.utf8ByteSize.go]
  | cons c cs ih =>
    simp [String.utf8ByteSize.go, ih]
    omega

/-- Go byte length is additive over string concatenation. -/
theorem goLen_append (a b : String) : goLen (a ++ b) = goLen a + goLen b := by
  cases a with
  | mk l1 =>
    cases b with
    | mk l2 => exact utf8Go_append l1 l2

/-! ### Claim theorems -/

/-- C2: for every configured priority `cp` and per-call severity `p` (any
integers, in range or not), the priority written to the wire is
`(cp & 0xF8) | (p & 0x07)`: its severity bits equal `p & 0x07` and its
facility bits equal `cp & 0xF8`; every frame an emission call hands to the
transport carries exactly that wire priority; and a client configured with
`USER|NOTICE` emitting at `INFO` severity produces `PRI = USER|INFO`, not
`USER|NOTICE`. -/
theorem c2_wire_priority_masks (cp p : Priority) (w : Writer) (env : NetEnv)
    (msg : String) :
    Int.land (wirePriority cp p) severityMask = Int.land p severityMask ∧
    Int.land (wirePriority cp p) facilityMask = Int.land cp facilityMask ∧
    (∀ fr ∈ framesOf (w.writeAndRetry env p msg).2.2, ∃ host,
        fr = writeStringFrame (wirePriority w.priority p) env.timestamp host
          w.tag env.pid msg (nlFor msg)) ∧
    wirePriority (Int.lor LOG_USER LOG_NOTICE) LOG_INFO =
      Int.lor LOG_USER LOG_INFO ∧
    wirePriority (Int.lor LOG_USER LOG_NOTICE) LOG_INFO ≠
      Int.lor LOG_USER LOG_NOTICE := by
  refine ⟨(wirePriority_masks cp p).1, (wirePriority_masks cp p).2, ?_,
    by decide, by decide⟩
  intro fr hfr
  cases hc : env.connHeld with
  | true =>
    cases hf : env.firstWriteErr with
    | none =>
      rw [writeAndRetry_first_ok w env p msg hc hf] at hfr
      simp only [framesOf, List.mem_singleton] at hfr
      exact ⟨w.hostname, hfr⟩
    | some e1 =>
      rw [writeAndRetry_firstfail_deadlock w env p msg e1 hc hf] at hfr
      simp only [framesOf, List.mem_singleton] at hfr
      exact ⟨w.hostname, hfr⟩
  | false =>
    cases hce : env.connectErr with
    | some e =>
      rw [writeAndRetry_noconn_fail w env p msg e hc hce] at hfr
      simp [framesOf] at hfr
    | none =>
      rw [writeAndRetry_noconn_ok w env p msg hc hce,
        connectDial_tag w env] at hfr
      simp only [framesOf, List.mem_cons, List.not_mem_nil, or_false,
        List.mem_singleton] at hfr
      exact ⟨((w.connectDial env).2).hostname, hfr⟩

/-- Witness for C2 at concrete inputs. -/
theorem c2_witness :
    Int.land (wirePriority 13 6) severityMask = Int.land 6 severityMask :=
  (c2_wire_priority_masks 13 6 sampleWriter sampleEnvOk "m").1

/-- C3 (code bug): the claimed retry discipline breaks on the
held-connection, first-write-failed path.  There `writeAndRetry` calls
`connect()` while the connection is still held, and `connect()`'s
stale-connection `w.Close()` re-acquires the mutex `writeAndRetry` already
holds, so the emission call deadlocks: it never returns (result `none`),
performs no reconnect, and never reaches a second write — where the claim
requires the single reconnect to happen and the call to return `(0, e)` on
its failure or the result of exactly one more write on its success. -/
theorem c3_deadlock_code_bug (w : Writer) (env : NetEnv) (p : Priority)
    (s : String) (e1 : Err) (hc : env.connHeld = true)
    (hf : env.firstWriteErr = some e1) :
    (w.writeAndRetry env p s).1 = none ∧
    connectCount (w.writeAndRetry env p s).2.2 = 0 ∧
    writeCount (w.writeAndRetry env p s).2.2 = 1 := by
  rw [writeAndRetry_firstfail_deadlock w env p s e1 hc hf]
  exact ⟨rfl, by simp [connectCount], by simp [writeCount, framesOf]⟩

/-- Witness for the C3 code bug at a concrete failing input: the emission
call on a held connection whose write fails never returns. -/
theorem c3_witness :
    (sampleWriter.writeAndRetry sampleEnvFirstFail 7 "m").1 = none :=
  (c3_deadlock_code_bug sampleWriter sampleEnvFirstFail 7 "m"
    "write: broken pipe" rfl rfl).1

/-- C4: a successful write returns the byte length of the caller-supplied
message (strictly smaller than the framed wire string's length), and a
failed transport write returns 0 and the error. -/
theorem c4_write_byte_count (w : Writer) (ts : String) (pid : Nat)
    (p : Priority) (msg : String) (e : Err) :
    (w.write ts pid none p msg).1 = (goLen msg, none) ∧
    goLen msg < goLen ((w.write ts pid none p msg).2) ∧
    (w.write ts pid (some e) p msg).1 = (0, some e) := by
  refine ⟨rfl, ?_, rfl⟩
  rw [write_frame]
  unfold writeStringFrame
  simp only [goLen_append]
  have h1 : goLen "<" = 1 := rfl
  omega

/-! ### Parser lemmas -/

/-- `strings.Split` never yields an empty token list. -/
theorem splitChars_ne_nil (sep : Char) (cs : List Char) :
    splitChars sep cs ≠ [] := by
  induction cs with
  | nil => simp [splitChars]
  | cons c rest ih =>
    unfold splitChars
    split
    · simp
    · split
      · simp
      · simp

/-- `goSplit` never yields an empty token list. -/
theorem goSplit_ne_nil (s : String) (sep : Char) : goSplit s sep ≠ [] := by
  unfold goSplit
  intro h
  exact splitChars_ne_nil sep s.data (List.map_eq_nil_iff.mp h)

/-- Values of a successful `facilityPriorityUp` are among the 20 table
entries. -/
theorem facilityPriorityUp_ok_values (u : String) (v : Priority)
    (h : facilityPriorityUp u = .ok v) : v ∈ facilityValuesList := by
  unfold facilityPriorityUp at h
  split at h <;>
    simp_all [facilityValuesList, LOG_KERN, LOG_USER, LOG_MAIL, LOG_DAEMON,
      LOG_AUTH, LOG_SYSLOG, LOG_LPR, LOG_NEWS, LOG_UUCP, LOG_CRON,
      LOG_AUTHPRIV, LOG_FTP, LOG_LOCAL0, LOG_LOCAL1, LOG_LOCAL2, LOG_LOCAL3,
      LOG_LOCAL4, LOG_LOCAL5, LOG_LOCAL6, LOG_LOCAL7]

/-- Values of a successful `levelPriorityUp` are among the 8 level values. -/
theorem levelPriorityUp_ok_values (u : String) (v : Priority)
    (h : levelPriorityUp u = .ok v) : v ∈ levelValuesList := by
  unfold levelPriorityUp at h
  split at h <;>
    simp_all [levelValuesList, LOG_EMERG, LOG_ALERT, LOG_CRIT, LOG_ERR,
      LOG_WARNING, LOG_NOTICE, LOG_INFO, LOG_DEBUG]

/-- `facilityPriorityUp` errs exactly on tokens outside the facility
table. -/
theorem facilityPriorityUp_error_iff (u : String) :
    (∃ x, facilityPriorityUp u = .error (.invalidFacility x)) ↔
      u ∉ facilityNames := by
  unfold facilityPriorityUp
  split <;> simp_all [facilityNames]

/-- `levelPriorityUp` errs exactly on tokens outside the level table plus
the `WARN` alias. -/
theorem levelPriorityUp_error_iff (u : String) :
    (∃ x, levelPriorityUp u = .error (.invalidLevel x)) ↔
      u ∉ levelNamesAccepted := by
  unfold levelPriorityUp
  split <;> simp_all [levelNamesAccepted, levelNames]

/-- A successful parse is the `or` of a facility-table value and a
level-table value. -/
theorem parsePriority_ok_shape (s : String) (r : Priority)
    (h : parsePriority s = some (.ok r)) :
    ∃ t0 t1 fv lv, facilityPriority t0 = .ok fv ∧ levelPriority t1 = .ok lv ∧
      r = Int.lor fv lv := by
  unfold parsePriority at h
  dsimp only at h
  split at h
  · exact absurd h (by simp)
  · rename_i t0 ht0
    split at h
    · exact absurd h (by simp)
    · rename_i fv hfv
      split at h
      · exact absurd h (by simp)
      · rename_i t1 ht1
        split at h
        · exact absurd h (by simp)
        · rename_i lv hlv
          simp only [Option.some.injEq, Except.ok.injEq] at h
          exact ⟨t0, t1, fv, lv, hfv, hlv, h.symm⟩

/-- The `or` of a facility value and a level value stays within the range
`Dial` accepts. -/
theorem facLev_lor_bounds :
    ∀ fv ∈ facilityValuesList, ∀ lv ∈ levelValuesList,
      0 ≤ Int.lor fv lv ∧ Int.lor fv lv ≤ Int.lor LOG_LOCAL7 LOG_DEBUG := by
  decide

/-- C1 counterexample: on the input `"user"` — no `'.'` separator but a
valid facility token — `parsePriority` reads the level token out of bounds
(the `none` of the model, a run-time panic in the code), so it is not total:
it returns neither a `Priority` nor an error. -/
theorem c1_counterexample :
    parsePriority "user" = none ∧ (goSplit "user" '.').length = 1 := by
  decide

/-- C1 amended: accessing the facility token never goes out of bounds (the
split always yields at least one token), and `parsePriority` returns a
`Priority` or an error for every input except exactly those whose split
yields a single token (no `'.'`) that is a valid facility mnemonic; there
the access to the level token goes out of bounds. -/
theorem c1_parse_totality_amended (s : String) :
    (∃ t0, (goSplit s '.')[0]? = some t0) ∧
    (parsePriority s = none ↔
      (goSplit s '.').length = 1 ∧
      ∃ t0 v, (goSplit s '.')[0]? = some t0 ∧ facilityPriority t0 = .ok v) := by
  cases htoks : goSplit s '.' with
  | nil => exact absurd htoks (goSplit_ne_nil s '.')
  | cons t0 rest =>
    constructor
    · exact ⟨t0, by simp⟩
    · unfold parsePriority
      rw [htoks]
      dsimp only
      cases hfv : facilityPriority t0 with
      | error e =>
        simp only [List.getElem?_cons_zero]
        rw [hfv]
        cases rest with
        | nil => simp [hfv]
        | cons t1 rest2 => simp [hfv]
      | ok fv =>
        simp only [List.getElem?_cons_zero]
        rw [hfv]
        cases rest with
        | nil => simp [hfv]
        | cons t1 rest2 =>
          cases hlv : levelPriority t1 with
          | error e => simp [hlv]
          | ok lv => simp [hlv]

/-- Witness for the amended C1 at the concrete failing input. -/
theorem c1_witness :
    (goSplit "user" '.').length = 1 ∧
    ∃ t0 v, (goSplit "user" '.')[0]? = some t0 ∧
      facilityPriority t0 = .ok v :=
  (c1_parse_totality_amended "user").2.mp (by decide)

/-- C5: for each of the 20 facility mnemonics `f` and 8 level mnemonics `l`,
`parsePriority (f ++ "." ++ l)` succeeds with exactly the `or` of the two
table values. -/
theorem c5_parse_matches_tables :
    ∀ f ∈ facilityNames, ∀ l ∈ levelNames, checkPair f l = true := by
  decide

/-- Witness for C5 at one concrete pair. -/
theorem c5_witness : checkPair "LOCAL3" "DEBUG" = true :=
  c5_parse_matches_tables "LOCAL3" (by decide) "DEBUG" (by decide)

/-- C6: `facilityPriority` fails (with an invalid-facility error) exactly
when the upper-cased token is outside the 20 facility mnemonics, so no token
reaches the reserved codes 12-15; `levelPriority` fails (with an
invalid-level error) exactly when the upper-cased token is outside the 8
level mnemonics plus the `WARN` alias, and `WARN` parses as `WARNING`. -/
theorem c6_mnemonic_errors (t : String) :
    ((∃ u, facilityPriority t = .error (.invalidFacility u)) ↔
      toUpperGo t ∉ facilityNames) ∧
    (∀ v, facilityPriority t = .ok v → v ∉ reservedFacilityValues) ∧
    ((∃ u, levelPriority t = .error (.invalidLevel u)) ↔
      toUpperGo t ∉ levelNamesAccepted) ∧
    levelPriority "warn" = .ok LOG_WARNING ∧
    levelPriority "warn" = levelPriority "warning" := by
  refine ⟨facilityPriorityUp_error_iff (toUpperGo t), ?_,
    levelPriorityUp_error_iff (toUpperGo t), by decide, by decide⟩
  intro v hv
  have hmem : v ∈ facilityValuesList :=
    facilityPriorityUp_ok_values (toUpperGo t) v hv
  exact (by decide :
    ∀ x ∈ facilityValuesList, x ∉ reservedFacilityValues) v hmem

/-- Witness for C6 at a concrete invalid token. -/
theorem c6_witness : toUpperGo "bogus" ∉ facilityNames :=
  (c6_mnemonic_errors "bogus").1.mp ⟨"BOGUS", by decide⟩

/-- C10: every priority a successful `parsePriority` returns lies in
`[0, LOG_LOCAL7|LOG_DEBUG]`, so handing a parsed priority to `Dial` can
never produce the invalid-priority rejection. -/
theorem c10_parse_in_dial_range (s : String) (r : Priority)
    (h : parsePriority s = some (.ok r)) :
    0 ≤ r ∧ r ≤ Int.lor LOG_LOCAL7 LOG_DEBUG ∧
    ∀ (network raddr tag hostname : String) (env : DialEnv),
      Dial network raddr r tag hostname env ≠ .error .invalidPriority := by
  obtain ⟨t0, t1, fv, lv, hfv, hlv, hr⟩ := parsePriority_ok_shape s r h
  have hfm : fv ∈ facilityValuesList :=
    facilityPriorityUp_ok_values (toUpperGo t0) fv hfv
  have hlm : lv ∈ levelValuesList :=
    levelPriorityUp_ok_values (toUpperGo t1) lv hlv
  obtain ⟨h0, h191⟩ := facLev_lor_bounds fv hfm lv hlm
  subst hr
  refine ⟨h0, h191, ?_⟩
  intro network raddr tag hostname env
  unfold Dial
  rw [if_neg (by push_neg; exact ⟨h0, h191⟩)]
  intro hcontra
  dsimp only at hcontra
  split at hcontra <;> simp_all

/-- Witness for C10 at the parse of `"local3.debug"`. -/
theorem c10_witness :
    Dial "udp" ":514" 159 "" "" sampleDialEnv ≠ .error .invalidPriority :=
  (c10_parse_in_dial_range "local3.debug" 159 (by decide)).2.2
    "udp" ":514" "" "" sampleDialEnv

/-- C7: `Dial` returns the invalid-priority error (and no client) exactly
when the combined priority lies outside `[0, LOG_LOCAL7|LOG_DEBUG]`; inside
the range it resolves tag and hostname and performs the initial connect,
surfacing a connect failure as a connection error and otherwise returning
the constructed client. -/
theorem c7_dial_priority_validation (network raddr : String)
    (priority : Priority) (tag hostname : String) (env : DialEnv) :
    (Dial network raddr priority tag hostname env = .error .invalidPriority ↔
      (priority < 0 ∨ Int.lor LOG_LOCAL7 LOG_DEBUG < priority)) ∧
    (0 ≤ priority → priority ≤ Int.lor LOG_LOCAL7 LOG_DEBUG →
      (∀ e, env.net.connectErr = some e →
        Dial network raddr priority tag hostname env =
          .error (.connectionError e)) ∧
      (env.net.connectErr = none → ∃ w',
        Dial network raddr priority tag hostname env = .ok w' ∧
        w'.priority = priority ∧
        w'.tag = (if tag = "" then env.arg0 else tag) ∧
        w'.network = network ∧ w'.raddr = raddr)) := by
  by_cases hcond : priority < 0 ∨ Int.lor LOG_LOCAL7 LOG_DEBUG < priority
  · constructor
    · unfold Dial
      rw [if_pos hcond]
      simp [hcond]
    · intro h0 h191
      exfalso
      rcases hcond with hlt | hgt
      · exact absurd hlt (not_lt.mpr h0)
      · exact absurd hgt (not_lt.mpr h191)
  · constructor
    · unfold Dial
      rw [if_neg hcond]
      constructor
      · intro h
        dsimp only at h
        split at h <;> simp_all
      · intro hc
        exact absurd hc hcond
    · intro _ _
      constructor
      · intro e hce
        unfold Dial Writer.connectDial
        rw [if_neg hcond]
        dsimp only
        rw [hce]
      · intro hce
        unfold Dial Writer.connectDial
        rw [if_neg hcond]
        dsimp only
        rw [hce]
        dsimp only
        refine ⟨_, rfl, ?_, ?_, ?_, ?_⟩ <;> split <;> split <;> rfl

/-- Witness for C7 at the out-of-range priority 200. -/
theorem c7_witness :
    Dial "udp" ":514" 200 "" "" sampleDialEnv = .error .invalidPriority :=
  (c7_dial_priority_validation "udp" ":514" 200 "" "" sampleDialEnv).1.mpr
    (by decide)

/-- `endsInNewline` read off the reversed character list. -/
theorem endsInNewline_rev (s : String) :
    endsInNewline s = match s.data.reverse.head? with
      | some c => c == '\n'
      | none => false := by
  unfold endsInNewline
  rw [List.head?_reverse]

/-- The frame splits into its pre-message part, the message and the
newline. -/
theorem frame_split (p : Priority) (ts host tag : String) (pid : Nat)
    (msg nl : String) :
    writeStringFrame p ts host tag pid msg nl =
      framePre p ts host tag pid ++ msg ++ nl := rfl

/-- `framePre` always ends in the space of `"]: "`. -/
theorem framePre_rev (p : Priority) (ts host tag : String) (pid : Nat) :
    ∃ rest, (framePre p ts host tag pid).data.reverse = ' ' :: rest := by
  unfold framePre
  rw [String.data_append, List.reverse_append]
  exact ⟨_, rfl⟩

/-- Reversed characters of a concatenation. -/
theorem rev_append_str (a b : String) :
    (a ++ b).data.reverse = b.data.reverse ++ a.data.reverse := by
  rw [String.data_append, List.reverse_append]

/-- `endsTwoNl` read off the reversed character list. -/
theorem endsTwoNl_rev (s : String) :
    endsTwoNl s = match s.data.reverse with
      | c1 :: c2 :: _ => c1 == '\n' && c2 == '\n'
      | _ => false := rfl

/-- C8: a message without a trailing newline gains exactly one (and the
framed string then ends in a newline but not in two); a message already
ending in a newline gains none; and a message ending in exactly one newline
never produces a frame with two trailing newlines. -/
theorem c8_trailing_newline (p : Priority) (ts host tag : String) (pid : Nat)
    (msg : String) :
    (endsInNewline msg = false →
      writeStringFrame p ts host tag pid msg (nlFor msg) =
        framePre p ts host tag pid ++ msg ++ "\n" ∧
      endsInNewline (writeStringFrame p ts host tag pid msg (nlFor msg)) =
        true ∧
      endsTwoNl (writeStringFrame p ts host tag pid msg (nlFor msg)) =
        false) ∧
    (endsInNewline msg = true →
      writeStringFrame p ts host tag pid msg (nlFor msg) =
        framePre p ts host tag pid ++ msg) ∧
    (endsInNewline msg = true → endsTwoNl msg = false →
      endsTwoNl (writeStringFrame p ts host tag pid msg (nlFor msg)) =
        false) := by
  obtain ⟨preRest, hpre⟩ := framePre_rev p ts host tag pid
  refine ⟨?_, ?_, ?_⟩
  · intro hnl
    have hfr : writeStringFrame p ts host tag pid msg (nlFor msg) =
        framePre p ts host tag pid ++ msg ++ "\n" := by
      rw [frame_split]
      unfold nlFor
      rw [hnl]
      rfl
    have hdata : (framePre p ts host tag pid ++ msg ++ "\n").data.reverse =
        '\n' :: (msg.data.reverse ++
          (framePre p ts host tag pid).data.reverse) := by
      rw [rev_append_str, rev_append_str]
      rfl
    refine ⟨hfr, ?_, ?_⟩
    · rw [hfr, endsInNewline_rev, hdata]
      rfl
    · rw [hfr, endsTwoNl_rev, hdata]
      cases hmr : msg.data.reverse with
      | nil =>
        rw [hpre]
        simp
      | cons c t =>
        rw [endsInNewline_rev, hmr] at hnl
        simp only [List.head?_cons] at hnl
        simp [hnl]
  · intro hnl
    rw [frame_split]
    unfold nlFor
    rw [hnl]
    show framePre p ts host tag pid ++ msg ++ "" =
      framePre p ts host tag pid ++ msg
    rw [String.append_empty]
  · intro hnl h2
    have hfr : writeStringFrame p ts host tag pid msg (nlFor msg) =
        framePre p ts host tag pid ++ msg := by
      rw [frame_split]
      unfold nlFor
      rw [hnl]
      show framePre p ts host tag pid ++ msg ++ "" =
        framePre p ts host tag pid ++ msg
      rw [String.append_empty]
    rw [hfr, endsTwoNl_rev]
    rw [endsInNewline_rev] at hnl
    cases hmr : msg.data.reverse with
    | nil => rw [hmr] at hnl; simp at hnl
    | cons c t =>
      rw [hmr] at hnl
      simp only [List.head?_cons] at hnl
      have hc : c = '\n' := by
        have := hnl
        exact eq_of_beq this
      subst hc
      rw [rev_append_str, hmr]
      cases t with
      | nil =>
        rw [hpre]
        simp
      | cons c2 t2 =>
        have h2' : (c2 == '\n') = false := by
          unfold endsTwoNl at h2
          rw [hmr] at h2
          simpa using h2
        simp [h2']

/-- Witness for C8 at a message with no trailing newline. -/
theorem c8_witness :
    endsTwoNl (writeStringFrame 159 "T" "h" "svc" 7 "hi" (nlFor "hi")) =
      false :=
  ((c8_trailing_newline 159 "T" "h" "svc" 7 "hi").1 rfl).2.2

/-- C9 counterexample: `LOG_LOCAL3|LOG_DEBUG` is 159, not 187, and the frame
emitted by the scenario client (facility LOCAL3, severity ERR, tag "svc",
`Debug("disk full")`) starts with `<159>` and not with `<187>`. -/
theorem c9_counterexample :
    Int.lor LOG_LOCAL3 LOG_DEBUG = 159 ∧
    ¬Int.lor LOG_LOCAL3 LOG_DEBUG = 187 ∧
    framesOf (scenarioWriter.Debug scenarioEnv "disk full").2.2 =
      ["<159>2006-01-02T15:04:05Z myhost svc[77]: disk full\n"] ∧
    strHasPre "<187>"
      "<159>2006-01-02T15:04:05Z myhost svc[77]: disk full\n" = false := by
  decide

/-- C9 amended: the scenario client's `Debug("disk full")` frame begins with
`<159>` — the decimal value of `LOG_LOCAL3|LOG_DEBUG` — followed by
timestamp, hostname and `svc[pid]: disk full`. -/
theorem c9_amended (env : NetEnv) (host : String)
    (hc : env.connHeld = true) (hf : env.firstWriteErr = none) :
    (Writer.Debug ⟨Int.lor LOG_LOCAL3 LOG_ERR, "svc", host, "udp", ":1514"⟩
      env "disk full").1 = some none ∧
    framesOf (Writer.Debug
        ⟨Int.lor LOG_LOCAL3 LOG_ERR, "svc", host, "udp", ":1514"⟩
        env "disk full").2.2 =
      ["<159>" ++ env.timestamp ++ " " ++ host ++ " " ++ "svc" ++ "[" ++
        natDec env.pid ++ "]: " ++ "disk full" ++ "\n"] := by
  unfold Writer.Debug
  rw [writeAndRetry_first_ok _ env LOG_DEBUG "disk full" hc hf]
  dsimp only
  refine ⟨rfl, ?_⟩
  simp only [framesOf]
  have hw : wirePriority (Int.lor LOG_LOCAL3 LOG_ERR) LOG_DEBUG = 159 := by
    decide
  rw [hw]
  unfold writeStringFrame
  have h159 : ("<" ++ intDec 159 ++ ">" : String) = "<159>" := by decide
  rw [h159]
  have hnl2 : nlFor "disk full" = "\n" := rfl
  rw [hnl2]

/-- Witness for the amended C9 at the concrete scenario environment. -/
theorem c9_witness :
    framesOf (Writer.Debug
        ⟨Int.lor LOG_LOCAL3 LOG_ERR, "svc", "myhost", "udp", ":1514"⟩
        scenarioEnv "disk full").2.2 =
      ["<159>" ++ scenarioEnv.timestamp ++ " " ++ "myhost" ++ " " ++ "svc" ++
        "[" ++ natDec scenarioEnv.pid ++ "]: " ++ "disk full" ++ "\n"] :=
  (c9_amended scenarioEnv "myhost" rfl rfl).2

end Syslog
